import Mathlib

/-!
Shallow embedding of src/dataEng_container_tools/bq.py (class BQ).

Modelling conventions:
- Python str is modelled as List Char; a Lean string literal s stands for the
  Python string via s.data.
- Python str.split(sep) with a one-character separator is splitChar, which is
  List.splitOn.
- The BigQuery SDK is modelled by an environment record (Env): the job objects
  its constructors hand back, the behaviour of client.get_table, and the
  service account email. Attribute lookup on a job object is modelled with
  Option fields (none = attribute absent, hasattr false); accessing an absent
  attribute raises AttributeError, as in Python.
- Effects (logging, job object construction carrying the job configuration,
  the table lookup, file reads and writes) are collected in a trace list, in
  program order. Raising is modelled with Except.
- Python json.load and json.dump (stdlib, called by BQ.__init__) are modelled
  on the JSON subset of null, true, false, unsigned integers, strings without
  escape sequences, arrays and objects, with the default separators of
  json.dump; inputs outside the subset make the modelled parser fail.
- Job ids (BQ.__create_job_id) use wall-clock time and randomness and appear
  in no claim; they are omitted from the model.
-/

namespace BQPy

/-- Python str.split(c) for a single-character separator: splits at every
occurrence of c, always returning at least one (possibly empty) piece. This
is exactly List.splitOn. -/
def splitChar (c : Char) (s : List Char) : List (List Char) :=
  s.splitOn c

/-- Python str.startswith(p): s begins with the characters of p. -/
def startswith (s p : List Char) : Bool :=
  match s, p with
  | _, [] => true
  | [], _ :: _ => false
  | x :: xs, y :: ys => x = y && startswith xs ys

/-- The characters of the optional object-storage scheme marker, gs://. -/
def gs_scheme : List Char := "gs://".data

/-- BQ.__get_parts (bq.py lines 76-85): strip an optional gs:// marker, split
on /, and return (first piece, pieces between first and last joined with the
empty string, last piece). -/
def get_parts (gcs_uri : List Char) : List Char × List Char × List Char :=
  let g := if startswith gcs_uri gs_scheme then gcs_uri.drop 5 else gcs_uri
  let uri_parts := splitChar '/' g
  (uri_parts.headD [], ((uri_parts.drop 1).dropLast).flatten, uri_parts.getLastD [])

/-- The SDK SourceFormat enum members used by bq.py. -/
inductive SourceFormat
  | PARQUET
  | NEWLINE_DELIMITED_JSON
  | AVRO
  | CSV
deriving DecidableEq, Repr

/-- BQ.__get_file_type (bq.py lines 87-96): map a filename suffix to a
serialization format. -/
def get_file_type (suffix : List Char) : SourceFormat :=
  if suffix = "parquet".data then SourceFormat.PARQUET
  else if suffix = "json".data then SourceFormat.NEWLINE_DELIMITED_JSON
  else if suffix = "avro".data then SourceFormat.AVRO
  else SourceFormat.CSV

/-- A datetime value as far as bq.py observes it: such an object is always
truthy, and the only method called on it is ctime(), modelled as an
uninterpreted stored string. -/
structure Time where
  ctime_out : List Char
deriving DecidableEq, Repr

/-- The ctime() method of a datetime object. -/
def Time.ctime (t : Time) : List Char := t.ctime_out

/-- Python exceptions distinguished by bq.py: NotFound (caught and re-raised
in load_from_gcs), AttributeError (raised by attribute access on an object
without that attribute), ValueError (raised by unpacking a split of the wrong
length, and the parent of the json decode error), and opaque SDK or user
exceptions (other). -/
inductive PyExc
  | NotFound (msg : List Char)
  | AttributeError (name : List Char)
  | ValueError
  | other (code : Nat)
deriving DecidableEq, Repr

/-- The object returned by bq_job.result(): bq.py only asks hasattr for
total_rows and reads it; none models the attribute being absent. -/
structure ResultsObj (α : Type) where
  total_rows : Option α
deriving DecidableEq, Repr

instance exceptDecEq {ε α : Type} [DecidableEq ε] [DecidableEq α] :
    DecidableEq (Except ε α) := fun x y =>
  match x, y with
  | Except.error a, Except.error b =>
    if h : a = b then isTrue (by rw [h]) else isFalse (by simp [h])
  | Except.ok a, Except.ok b =>
    if h : a = b then isTrue (by rw [h]) else isFalse (by simp [h])
  | Except.error _, Except.ok _ => isFalse (by simp)
  | Except.ok _, Except.error _ => isFalse (by simp)

/-- A job object handed back by the SDK, with exactly the attributes bq.py
reads. started and ended are None or datetime objects; for errors,
total_bytes_billed, total_bytes_processed and query_plan, none models hasattr
being false (the attribute is absent). destination is the attribute
queryJob.destination read by send_to_gcs. result_ret is what the blocking
result() call does: return a results object or raise. -/
structure PyJob (α : Type) where
  started : Option Time
  ended : Option Time
  errors : Option α
  total_bytes_billed : Option α
  total_bytes_processed : Option α
  query_plan : Option α
  destination : List Char
  result_ret : Except PyExc (ResultsObj α)
deriving DecidableEq, Repr

/-- The Job Result Record dict built by BQ.__get_results (bq.py lines
111-120), with its eight keys in order. -/
structure JobResult (α : Type) where
  start_time : Option (List Char)
  end_time : Option (List Char)
  job_errors : Option α
  total_bytes_billed : Option α
  total_bytes_processed : Option α
  total_rows_returned : Option α
  query_plan : Option α
  job_results : ResultsObj α
deriving DecidableEq, Repr

/-- The SDK ExtractJobConfig as bq.py constructs it: a destination format and
an optional field delimiter (none when the keyword is not passed). -/
structure ExtractJobConfig where
  destination_format : SourceFormat
  field_delimiter : Option (List Char)
deriving DecidableEq, Repr

/-- The SDK WriteDisposition values. -/
inductive WriteDisposition
  | WRITE_APPEND
  | WRITE_TRUNCATE
  | WRITE_EMPTY
deriving DecidableEq, Repr

/-- The SDK LoadJobConfig as bq.py constructs it. -/
structure LoadJobConfig where
  autodetect : Bool
  write_disposition : WriteDisposition
  source_format : SourceFormat
deriving DecidableEq, Repr

/-- The SDK DatasetReference(project, dataset_id). -/
structure DatasetReference where
  project : List Char
  dataset_id : List Char
deriving DecidableEq, Repr

/-- The SDK TableReference(dataset, table_name). -/
structure TableReference where
  dataset : DatasetReference
  table_name : List Char
deriving DecidableEq, Repr

/-- Observable effects of the facade operations, in program order: logger
calls, job object construction (which carries the job configuration to the
SDK), and the client.get_table lookup. -/
inductive Effect (α : Type)
  | logError (e : PyExc) (sa_email : List Char)
  | logInfo (r : JobResult α)
  | submitQuery (query : List Char)
  | submitExtract (config : ExtractJobConfig) (source : List Char) (dest_uri : List Char)
  | getTable (table_id : List Char)
  | submitLoad (config : LoadJobConfig) (table : TableReference) (input_uri : List Char)
deriving DecidableEq, Repr

/-- The SDK client behaviour the facade depends on: the service account email
(read when logging a job failure), the job objects the SDK constructors
yield, and the behaviour of client.get_table. -/
structure Env (α : Type) where
  sa_email : List Char
  query_job : List Char → PyJob α
  extract_job : ExtractJobConfig → List Char → List Char → PyJob α
  get_table : List Char → Except PyExc Unit
  load_job : LoadJobConfig → TableReference → List Char → PyJob α

/-- BQ.__get_results (bq.py lines 98-126): block on bq_job.result(); on any
exception log it with the service account email and re-raise it; otherwise
build the Job Result Record dict and log it. The dict entries follow the
source line by line; in particular job_errors is None when hasattr(bq_job,
"errors") is true, and evaluating the dict raises AttributeError when the
errors attribute is absent, because the source tests hasattr without the
negation used on the neighbouring lines. -/
def get_results {α : Type} (sa_email : List Char) (bq_job : PyJob α) :
    Except PyExc (JobResult α) × List (Effect α) :=
  match bq_job.result_ret with
  | Except.error e => (Except.error e, [Effect.logError e sa_email])
  | Except.ok bq_job_results =>
    match bq_job.errors with
    | none => (Except.error (PyExc.AttributeError "errors".data), [])
    | some _ =>
      let job_result : JobResult α :=
        { start_time := bq_job.started.map Time.ctime
          end_time := bq_job.ended.map Time.ctime
          job_errors := none
          total_bytes_billed := bq_job.total_bytes_billed
          total_bytes_processed := bq_job.total_bytes_processed
          total_rows_returned := bq_job_results.total_rows
          query_plan := bq_job.query_plan
          job_results := bq_job_results }
      (Except.ok job_result, [Effect.logInfo job_result])

/-- The dict of named job result records an operation returns. -/
def JobsMap (α : Type) := List (List Char × JobResult α)

/-- BQ.send_to_gcs (bq.py lines 128-153): run the query job, infer the
destination format from the last dot suffix of output_uri, build the extract
config (with the delimiter exactly when the format is CSV), run the extract
job from queryJob.destination to output_uri, and return the dict of both
result records. -/
def send_to_gcs {α : Type} (env : Env α)
    (query project_id output_uri delimiter : List Char) :
    Except PyExc (JobsMap α) × List (Effect α) :=
  let _ := project_id
  let queryJob := env.query_job query
  match get_results env.sa_email queryJob with
  | (Except.error e, t1) => (Except.error e, Effect.submitQuery query :: t1)
  | (Except.ok qres, t1) =>
    let output_type := (splitChar '.' output_uri).getLastD []
    let dest_format := get_file_type output_type
    let config :=
      if dest_format = SourceFormat.CSV then
        ExtractJobConfig.mk dest_format (some delimiter)
      else
        ExtractJobConfig.mk dest_format none
    let extractJob := env.extract_job config queryJob.destination output_uri
    match get_results env.sa_email extractJob with
    | (Except.error e, t2) =>
      (Except.error e,
       Effect.submitQuery query :: t1
         ++ Effect.submitExtract config queryJob.destination output_uri :: t2)
    | (Except.ok eres, t2) =>
      (Except.ok [("queryJob".data, qres), ("extractJob".data, eres)],
       Effect.submitQuery query :: t1
         ++ Effect.submitExtract config queryJob.destination output_uri :: t2)

/-- BQ.load_from_gcs (bq.py lines 155-176): look the table up, turning
NotFound into the instructive NotFound message; unpack table_id as
project.dataset.table (ValueError when the split does not have three parts);
infer the source format from the last dot suffix of input_uri; submit one
append load job with autodetect; return the singleton dict. -/
def load_from_gcs {α : Type} (env : Env α) (table_id input_uri : List Char) :
    Except PyExc (JobsMap α) × List (Effect α) :=
  match env.get_table table_id with
  | Except.error (PyExc.NotFound _) =>
    (Except.error (PyExc.NotFound
        ("Create ".data ++ table_id
          ++ " using terraform in Github before running the container".data)),
     [Effect.getTable table_id])
  | Except.error e => (Except.error e, [Effect.getTable table_id])
  | Except.ok _ =>
    match splitChar '.' table_id with
    | [project_id, ds_id, table_name] =>
      let _ := project_id
      let dataset := DatasetReference.mk project_id ds_id
      let output_table := TableReference.mk dataset table_name
      let ending := (splitChar '.' input_uri).getLastD []
      let file_type := get_file_type ending
      let config := LoadJobConfig.mk true WriteDisposition.WRITE_APPEND file_type
      let loadJob := env.load_job config output_table input_uri
      match get_results env.sa_email loadJob with
      | (Except.error e, t) =>
        (Except.error e,
         Effect.getTable table_id
           :: Effect.submitLoad config output_table input_uri :: t)
      | (Except.ok r, t) =>
        (Except.ok [("loadJob".data, r)],
         Effect.getTable table_id
           :: Effect.submitLoad config output_table input_uri :: t)
    | _ => (Except.error PyExc.ValueError, [Effect.getTable table_id])

/-- BQ.copy_tables (bq.py lines 178-184): the body assigns an empty dict and
everything else is commented out, so the call performs no effect and returns
None. -/
def copy_tables {α : Type} (destination_table : List Char)
    (source_tables : List (List Char)) :
    Option (JobsMap α) × List (Effect α) :=
  let _ := destination_table
  let _ := source_tables
  (none, [])

/-- The extract configs carried by the job construction events of a trace. -/
def extract_configs {α : Type} (t : List (Effect α)) : List ExtractJobConfig :=
  t.filterMap (fun e =>
    match e with
    | Effect.submitExtract config _ _ => some config
    | _ => none)

/-- The load submissions (config, destination table, source uri) carried by
the job construction events of a trace. -/
def load_submissions {α : Type} (t : List (Effect α)) :
    List (LoadJobConfig × TableReference × List Char) :=
  t.filterMap (fun e =>
    match e with
    | Effect.submitLoad config table uri => some (config, table, uri)
    | _ => none)

-- The JSON model for BQ.__init__ (Python json.load and json.dump on the
-- subset described at the top of the file).

/-- The double-quote character. -/
def quot : Char := Char.ofNat 34

/-- The backslash character. -/
def bslash : Char := Char.ofNat 92

/-- The opening curly bracket character. -/
def lbrace : Char := Char.ofNat 123

/-- The closing curly bracket character. -/
def rbrace : Char := Char.ofNat 125

/-- JSON values of the modelled subset. -/
inductive Json
  | null
  | bool (b : Bool)
  | num (n : Nat)
  | str (s : List Char)
  | arr (xs : List Json)
  | obj (kvs : List (List Char × Json))
deriving Repr

/-- The JSON whitespace characters skipped between tokens. -/
def is_ws (c : Char) : Bool :=
  c = ' ' || c = '\t' || c = '\n' || c = '\r'

/-- Drop leading JSON whitespace. -/
def skip_ws : List Char → List Char
  | [] => []
  | c :: cs => if is_ws c then skip_ws cs else c :: cs

/-- Consume a string body up to the closing quote; escape sequences are
outside the modelled subset and make the parser fail. -/
def take_string : List Char → Option (List Char × List Char)
  | [] => none
  | c :: cs =>
    if c = quot then some ([], cs)
    else if c = bslash then none
    else
      match take_string cs with
      | none => none
      | some (content, rest) => some (c :: content, rest)

/-- Consume a maximal run of decimal digits. -/
def take_digits : List Char → List Char × List Char
  | [] => ([], [])
  | c :: cs =>
    if c.isDigit then
      let p := take_digits cs
      (c :: p.1, p.2)
    else ([], c :: cs)

/-- Decimal digits to a natural number. -/
def digits_to_nat (ds : List Char) : Nat :=
  ds.foldl (fun n c => 10 * n + (c.toNat - 48)) 0

/-- Parse an unsigned JSON integer (no leading zeros, as in JSON). -/
def parse_number (s : List Char) : Option (Json × List Char) :=
  let p := take_digits s
  match p.1 with
  | [] => none
  | [d] => some (Json.num (digits_to_nat [d]), p.2)
  | d :: e :: more =>
    if d = '0' then none
    else some (Json.num (digits_to_nat (d :: e :: more)), p.2)

mutual

/-- Parse one JSON value of the subset; the fuel bounds recursion depth and
the top entry point supplies more fuel than the input length. -/
def parse_value : Nat → List Char → Option (Json × List Char)
  | 0, _ => none
  | Nat.succ fuel, s =>
    match skip_ws s with
    | [] => none
    | c :: cs =>
      if c = 'n' then
        match cs with
        | 'u' :: 'l' :: 'l' :: rest => some (Json.null, rest)
        | _ => none
      else if c = 't' then
        match cs with
        | 'r' :: 'u' :: 'e' :: rest => some (Json.bool true, rest)
        | _ => none
      else if c = 'f' then
        match cs with
        | 'a' :: 'l' :: 's' :: 'e' :: rest => some (Json.bool false, rest)
        | _ => none
      else if c.isDigit then parse_number (c :: cs)
      else if c = quot then
        match take_string cs with
        | none => none
        | some (content, rest) => some (Json.str content, rest)
      else if c = '[' then parse_array fuel cs
      else if c = lbrace then parse_object fuel cs
      else none

/-- Parse the remainder of an array after the opening bracket. -/
def parse_array : Nat → List Char → Option (Json × List Char)
  | 0, _ => none
  | Nat.succ fuel, s =>
    match skip_ws s with
    | [] => none
    | c :: cs =>
      if c = ']' then some (Json.arr [], cs)
      else
        match parse_value fuel (c :: cs) with
        | none => none
        | some (v, rest) => parse_array_items fuel [v] rest

/-- Parse the comma-separated items after the first array element. -/
def parse_array_items : Nat → List Json → List Char → Option (Json × List Char)
  | 0, _, _ => none
  | Nat.succ fuel, acc, s =>
    match skip_ws s with
    | [] => none
    | c :: cs =>
      if c = ']' then some (Json.arr acc.reverse, cs)
      else if c = ',' then
        match parse_value fuel cs with
        | none => none
        | some (v, rest) => parse_array_items fuel (v :: acc) rest
      else none

/-- Parse one key-value member of an object. -/
def parse_member : Nat → List Char → Option ((List Char × Json) × List Char)
  | 0, _ => none
  | Nat.succ fuel, s =>
    match skip_ws s with
    | [] => none
    | c :: cs =>
      if c = quot then
        match take_string cs with
        | none => none
        | some (key, rest) =>
          match skip_ws rest with
          | ':' :: rest2 =>
            match parse_value fuel rest2 with
            | none => none
            | some (v, rest3) => some ((key, v), rest3)
          | _ => none
      else none

/-- Parse the remainder of an object after the opening brace. -/
def parse_object : Nat → List Char → Option (Json × List Char)
  | 0, _ => none
  | Nat.succ fuel, s =>
    match skip_ws s with
    | [] => none
    | c :: cs =>
      if c = rbrace then some (Json.obj [], cs)
      else
        match parse_member fuel (c :: cs) with
        | none => none
        | some (kv, rest) => parse_object_items fuel [kv] rest

/-- Parse the comma-separated members after the first object member. -/
def parse_object_items : Nat → List (List Char × Json) → List Char →
    Option (Json × List Char)
  | 0, _, _ => none
  | Nat.succ fuel, acc, s =>
    match skip_ws s with
    | [] => none
    | c :: cs =>
      if c = rbrace then some (Json.obj acc.reverse, cs)
      else if c = ',' then
        match parse_member fuel cs with
        | none => none
        | some (kv, rest) => parse_object_items fuel (kv :: acc) rest
      else none

end

/-- Python json.load on the modelled subset: parse one value and require only
whitespace after it. -/
def json_load (s : List Char) : Option Json :=
  match parse_value (s.length + 1) s with
  | some (v, rest) => if skip_ws rest = [] then some v else none
  | none => none

mutual

/-- Python json.dump with its default separators on the modelled subset. -/
def dump_json : Json → List Char
  | Json.null => "null".data
  | Json.bool true => "true".data
  | Json.bool false => "false".data
  | Json.num n => Nat.toDigits 10 n
  | Json.str s => quot :: s ++ [quot]
  | Json.arr xs => '[' :: dump_list xs ++ [']']
  | Json.obj kvs => lbrace :: dump_members kvs ++ [rbrace]

/-- Array elements joined with a comma and a space. -/
def dump_list : List Json → List Char
  | [] => []
  | [x] => dump_json x
  | x :: y :: rest => dump_json x ++ ", ".data ++ dump_list (y :: rest)

/-- Object members, each key quoted and followed by a colon and a space,
joined with a comma and a space. -/
def dump_members : List (List Char × Json) → List Char
  | [] => []
  | [kv] => quot :: kv.1 ++ quot :: ':' :: ' ' :: dump_json kv.2
  | kv :: kv2 :: rest =>
    (quot :: kv.1 ++ quot :: ':' :: ' ' :: dump_json kv.2) ++ ", ".data
      ++ dump_members (kv2 :: rest)

end

/-- File-level effects of BQ.__init__, in program order. -/
inductive InitEffect
  | readFile (path : List Char)
  | writeFile (path contents : List Char)
  | clientFromServiceAccountJson (path : List Char)
deriving DecidableEq, Repr

/-- BQ.__init__ (bq.py lines 52-70): read the secret file, json.load its
contents (a failing parse raises the json decode error, a ValueError), write
the json.dump of the parsed value to the fixed local file bq-sa.json, and
only then construct the SDK client from that file. secret_contents is the
contents of the file at bq_secret_location. -/
def BQ_init (bq_secret_location secret_contents : List Char) :
    Except PyExc (List InitEffect) :=
  match json_load secret_contents with
  | none => Except.error PyExc.ValueError
  | some bq_sa =>
    Except.ok [InitEffect.readFile bq_secret_location,
               InitEffect.writeFile "bq-sa.json".data (dump_json bq_sa),
               InitEffect.clientFromServiceAccountJson "bq-sa.json".data]

-- Concrete inputs used by witnesses and by the evaluation at failing inputs.

/-- A completed job whose errors attribute is present (value 7) and whose
result() returns a results object with total_rows 5. -/
def job_with_errors_attr : PyJob Nat :=
  { started := none
    ended := none
    errors := some 7
    total_bytes_billed := some 3
    total_bytes_processed := none
    query_plan := some 9
    destination := []
    result_ret := Except.ok ⟨some 5⟩ }

/-- The same job with the errors attribute absent. -/
def job_without_errors_attr : PyJob Nat :=
  { job_with_errors_attr with errors := none }

/-- A job whose result() raises an opaque exception. -/
def job_that_raises : PyJob Nat :=
  { job_with_errors_attr with result_ret := Except.error (PyExc.other 1) }

/-- An environment whose jobs all succeed and whose table lookup succeeds. -/
def env_table_ok : Env Nat :=
  { sa_email := "sa@x".data
    query_job := fun _ => job_with_errors_attr
    extract_job := fun _ _ _ => job_with_errors_attr
    get_table := fun _ => Except.ok ()
    load_job := fun _ _ _ => job_with_errors_attr }

/-- The same environment with a table lookup that reports not-found. -/
def env_missing_table : Env Nat :=
  { env_table_ok with
    get_table := fun _ => Except.error (PyExc.NotFound "missing".data) }

end BQPy

namespace BQPy

-- Basic facts about the string primitives.

theorem splitChar_ne_nil (c : Char) (s : List Char) : splitChar c s ≠ [] :=
  List.splitOnP_ne_nil _ s

theorem startswith_append (p s : List Char) : startswith (p ++ s) p = true := by
  induction p with
  | nil => cases s <;> simp [startswith]
  | cons y ys ih => simp [startswith, ih]

theorem drop_five_append (s : List Char) : (gs_scheme ++ s).drop 5 = s := by
  have h : gs_scheme.length = 5 := by decide
  calc (gs_scheme ++ s).drop 5 = (gs_scheme ++ s).drop gs_scheme.length := by rw [h]
    _ = s := List.drop_left gs_scheme s

-- How extract_configs and load_submissions act on trace constructors.

@[simp] theorem extract_configs_nil {α : Type} :
    extract_configs ([] : List (Effect α)) = [] := rfl

@[simp] theorem extract_configs_cons_logError {α : Type} (e : PyExc) (sa : List Char)
    (t : List (Effect α)) :
    extract_configs (Effect.logError e sa :: t) = extract_configs t := rfl

@[simp] theorem extract_configs_cons_logInfo {α : Type} (r : JobResult α)
    (t : List (Effect α)) :
    extract_configs (Effect.logInfo r :: t) = extract_configs t := rfl

@[simp] theorem extract_configs_cons_submitQuery {α : Type} (q : List Char)
    (t : List (Effect α)) :
    extract_configs (Effect.submitQuery q :: t) = extract_configs t := rfl

@[simp] theorem extract_configs_cons_getTable {α : Type} (tid : List Char)
    (t : List (Effect α)) :
    extract_configs (Effect.getTable tid :: t) = extract_configs t := rfl

@[simp] theorem extract_configs_cons_submitLoad {α : Type} (c : LoadJobConfig)
    (tr : TableReference) (u : List Char) (t : List (Effect α)) :
    extract_configs (Effect.submitLoad c tr u :: t) = extract_configs t := rfl

@[simp] theorem extract_configs_cons_submitExtract {α : Type} (c : ExtractJobConfig)
    (s u : List Char) (t : List (Effect α)) :
    extract_configs (Effect.submitExtract c s u :: t) = c :: extract_configs t := rfl

@[simp] theorem extract_configs_append {α : Type} (t1 t2 : List (Effect α)) :
    extract_configs (t1 ++ t2) = extract_configs t1 ++ extract_configs t2 :=
  List.filterMap_append t1 t2 _

@[simp] theorem load_submissions_nil {α : Type} :
    load_submissions ([] : List (Effect α)) = [] := rfl

@[simp] theorem load_submissions_cons_logError {α : Type} (e : PyExc) (sa : List Char)
    (t : List (Effect α)) :
    load_submissions (Effect.logError e sa :: t) = load_submissions t := rfl

@[simp] theorem load_submissions_cons_logInfo {α : Type} (r : JobResult α)
    (t : List (Effect α)) :
    load_submissions (Effect.logInfo r :: t) = load_submissions t := rfl

@[simp] theorem load_submissions_cons_submitQuery {α : Type} (q : List Char)
    (t : List (Effect α)) :
    load_submissions (Effect.submitQuery q :: t) = load_submissions t := rfl

@[simp] theorem load_submissions_cons_getTable {α : Type} (tid : List Char)
    (t : List (Effect α)) :
    load_submissions (Effect.getTable tid :: t) = load_submissions t := rfl

@[simp] theorem load_submissions_cons_submitExtract {α : Type} (c : ExtractJobConfig)
    (s u : List Char) (t : List (Effect α)) :
    load_submissions (Effect.submitExtract c s u :: t) = load_submissions t := rfl

@[simp] theorem load_submissions_cons_submitLoad {α : Type} (c : LoadJobConfig)
    (tr : TableReference) (u : List Char) (t : List (Effect α)) :
    load_submissions (Effect.submitLoad c tr u :: t)
      = (c, tr, u) :: load_submissions t := rfl

@[simp] theorem load_submissions_append {α : Type} (t1 t2 : List (Effect α)) :
    load_submissions (t1 ++ t2) = load_submissions t1 ++ load_submissions t2 :=
  List.filterMap_append t1 t2 _

-- The trace of a single get_results call carries no job construction event.

theorem extract_configs_get_results {α : Type} (sa : List Char) (j : PyJob α) :
    extract_configs (get_results sa j).2 = [] := by
  match h : j.result_ret with
  | Except.error e => simp [get_results, h, extract_configs]
  | Except.ok r =>
    match he : j.errors with
    | none => simp [get_results, h, he, extract_configs]
    | some v => simp [get_results, h, he, extract_configs]

theorem load_submissions_get_results {α : Type} (sa : List Char) (j : PyJob α) :
    load_submissions (get_results sa j).2 = [] := by
  match h : j.result_ret with
  | Except.error e => simp [get_results, h, load_submissions]
  | Except.ok r =>
    match he : j.errors with
    | none => simp [get_results, h, he, load_submissions]
    | some v => simp [get_results, h, he, load_submissions]

-- Every extract config appearing in a send_to_gcs trace is the one built
-- from the output uri suffix and the delimiter.

theorem mem_extract_configs_send {α : Type} (env : Env α)
    (query project_id output_uri delimiter : List Char) (cfg : ExtractJobConfig)
    (hcfg : cfg ∈ extract_configs
      (send_to_gcs env query project_id output_uri delimiter).2) :
    cfg = (if get_file_type ((splitChar '.' output_uri).getLastD []) = SourceFormat.CSV
           then ExtractJobConfig.mk
             (get_file_type ((splitChar '.' output_uri).getLastD [])) (some delimiter)
           else ExtractJobConfig.mk
             (get_file_type ((splitChar '.' output_uri).getLastD [])) none) := by
  rcases hres : get_results env.sa_email (env.query_job query) with ⟨res1, t1⟩
  have ht1 : extract_configs t1 = [] := by
    have h0 := extract_configs_get_results env.sa_email (env.query_job query)
    rw [hres] at h0; exact h0
  cases res1 with
  | error e =>
    simp only [send_to_gcs, hres] at hcfg
    simp [ht1] at hcfg
  | ok qres =>
    simp only [send_to_gcs, hres] at hcfg
    set cfg0 := (if get_file_type ((splitChar '.' output_uri).getLastD []) = SourceFormat.CSV
           then ExtractJobConfig.mk
             (get_file_type ((splitChar '.' output_uri).getLastD [])) (some delimiter)
           else ExtractJobConfig.mk
             (get_file_type ((splitChar '.' output_uri).getLastD [])) none) with hc0
    rcases hres2 : get_results env.sa_email
        (env.extract_job cfg0 (env.query_job query).destination output_uri) with ⟨res2, t2⟩
    have ht2 : extract_configs t2 = [] := by
      have h2 := extract_configs_get_results env.sa_email
        (env.extract_job cfg0 (env.query_job query).destination output_uri)
      rw [hres2] at h2; exact h2
    rw [hres2] at hcfg
    cases res2 <;> simp [ht1, ht2] at hcfg <;> exact hcfg

-- Every load submission appearing in a load_from_gcs trace carries the
-- append-with-autodetect config whose source format comes from the input
-- uri suffix, and the input uri itself.

theorem mem_load_submissions_load {α : Type} (env : Env α)
    (table_id input_uri : List Char)
    (s : LoadJobConfig × TableReference × List Char)
    (hs : s ∈ load_submissions (load_from_gcs env table_id input_uri).2) :
    s.1 = LoadJobConfig.mk true WriteDisposition.WRITE_APPEND
      (get_file_type ((splitChar '.' input_uri).getLastD [])) ∧
    s.2.2 = input_uri := by
  match hgt : env.get_table table_id with
  | Except.error (PyExc.NotFound m) =>
    simp only [load_from_gcs, hgt] at hs
    simp at hs
  | Except.error (PyExc.AttributeError n) =>
    simp only [load_from_gcs, hgt] at hs; simp at hs
  | Except.error PyExc.ValueError =>
    simp only [load_from_gcs, hgt] at hs; simp at hs
  | Except.error (PyExc.other c) =>
    simp only [load_from_gcs, hgt] at hs; simp at hs
  | Except.ok u =>
    match hsp : splitChar '.' table_id with
    | [] => simp only [load_from_gcs, hgt, hsp] at hs; simp at hs
    | [p] => simp only [load_from_gcs, hgt, hsp] at hs; simp at hs
    | [p, d] => simp only [load_from_gcs, hgt, hsp] at hs; simp at hs
    | p :: d :: t :: x :: rest =>
      simp only [load_from_gcs, hgt, hsp] at hs; simp at hs
    | [p, d, t] =>
      simp only [load_from_gcs, hgt, hsp] at hs
      rcases hres : get_results env.sa_email
          (env.load_job
            (LoadJobConfig.mk true WriteDisposition.WRITE_APPEND
              (get_file_type ((splitChar '.' input_uri).getLastD [])))
            (TableReference.mk (DatasetReference.mk p d) t) input_uri) with ⟨res, tl⟩
      have htl : load_submissions tl = [] := by
        have h2 := load_submissions_get_results env.sa_email
          (env.load_job
            (LoadJobConfig.mk true WriteDisposition.WRITE_APPEND
              (get_file_type ((splitChar '.' input_uri).getLastD [])))
            (TableReference.mk (DatasetReference.mk p d) t) input_uri)
        rw [hres] at h2; exact h2
      rw [hres] at hs
      cases res <;> simp [htl] at hs <;> rw [hs] <;> exact ⟨by simp, rfl⟩

-- The case analysis of get_file_type as the spec words it.

theorem get_file_type_cases (sfx : List Char) :
    (sfx = "parquet".data → get_file_type sfx = SourceFormat.PARQUET) ∧
    (sfx = "json".data → get_file_type sfx = SourceFormat.NEWLINE_DELIMITED_JSON) ∧
    (sfx = "avro".data → get_file_type sfx = SourceFormat.AVRO) ∧
    (sfx ≠ "parquet".data → sfx ≠ "json".data → sfx ≠ "avro".data →
      get_file_type sfx = SourceFormat.CSV) := by
  unfold get_file_type
  refine ⟨fun h => ?_, fun h => ?_, fun h => ?_, fun h1 h2 h3 => ?_⟩ <;>
    split_ifs <;> simp_all

end BQPy

namespace BQPy

/-- Claim C1 fails on the code: the source inverts the hasattr test on the
job_errors entry. On a job whose errors attribute is present with value 7 the
record carries job_errors = None instead of 7 (while the neighbouring fields
total_bytes_billed, total_bytes_processed and query_plan are copied, or None
when absent, exactly as claimed); and on a job without the attribute the dict
construction raises AttributeError instead of storing None. -/
theorem get_results_job_errors_inverted :
    (get_results [] job_with_errors_attr).1
        = Except.ok
            { start_time := none
              end_time := none
              job_errors := none
              total_bytes_billed := some 3
              total_bytes_processed := none
              total_rows_returned := some 5
              query_plan := some 9
              job_results := ⟨some 5⟩ }
      ∧ job_with_errors_attr.errors = some 7
      ∧ (get_results [] job_without_errors_attr).1
          = Except.error (PyExc.AttributeError "errors".data) :=
  ⟨rfl, rfl, rfl⟩

/-- Claim C2: in both the export and the load operation, the serialization
format carried by every job configuration built for the given uri is selected
from the last dot-separated suffix of that uri: parquet, json and avro select
the corresponding named formats, and every other suffix selects CSV. -/
theorem format_selected_from_last_suffix {α : Type} (env : Env α)
    (query project_id uri delimiter table_id : List Char) :
    (∀ cfg ∈ extract_configs (send_to_gcs env query project_id uri delimiter).2,
        ((splitChar '.' uri).getLastD [] = "parquet".data →
            cfg.destination_format = SourceFormat.PARQUET) ∧
        ((splitChar '.' uri).getLastD [] = "json".data →
            cfg.destination_format = SourceFormat.NEWLINE_DELIMITED_JSON) ∧
        ((splitChar '.' uri).getLastD [] = "avro".data →
            cfg.destination_format = SourceFormat.AVRO) ∧
        ((splitChar '.' uri).getLastD [] ≠ "parquet".data →
          (splitChar '.' uri).getLastD [] ≠ "json".data →
          (splitChar '.' uri).getLastD [] ≠ "avro".data →
            cfg.destination_format = SourceFormat.CSV)) ∧
    (∀ s ∈ load_submissions (load_from_gcs env table_id uri).2,
        ((splitChar '.' uri).getLastD [] = "parquet".data →
            s.1.source_format = SourceFormat.PARQUET) ∧
        ((splitChar '.' uri).getLastD [] = "json".data →
            s.1.source_format = SourceFormat.NEWLINE_DELIMITED_JSON) ∧
        ((splitChar '.' uri).getLastD [] = "avro".data →
            s.1.source_format = SourceFormat.AVRO) ∧
        ((splitChar '.' uri).getLastD [] ≠ "parquet".data →
          (splitChar '.' uri).getLastD [] ≠ "json".data →
          (splitChar '.' uri).getLastD [] ≠ "avro".data →
            s.1.source_format = SourceFormat.CSV)) := by
  refine ⟨fun cfg hcfg => ?_, fun s hs => ?_⟩
  · have h := mem_extract_configs_send env query project_id uri delimiter cfg hcfg
    have hdf : cfg.destination_format
        = get_file_type ((splitChar '.' uri).getLastD []) := by
      rw [h]; split_ifs <;> rfl
    rw [hdf]
    exact get_file_type_cases _
  · have h := mem_load_submissions_load env table_id uri s hs
    have hsf : s.1.source_format
        = get_file_type ((splitChar '.' uri).getLastD []) := by rw [h.1]
    rw [hsf]
    exact get_file_type_cases _

/-- Witness for claim C2 at output uri out.parquet, with one extract config
and one load submission found in the concrete traces. -/
theorem format_selected_witness :
    (ExtractJobConfig.mk SourceFormat.PARQUET none).destination_format
        = SourceFormat.PARQUET
    ∧ (LoadJobConfig.mk true WriteDisposition.WRITE_APPEND
        SourceFormat.PARQUET).source_format = SourceFormat.PARQUET := by
  have h := format_selected_from_last_suffix env_table_ok "q".data "p".data
    "out.parquet".data ",".data "p.d.t".data
  exact ⟨(h.1 (ExtractJobConfig.mk SourceFormat.PARQUET none) (by decide)).1 (by decide),
         (h.2 (LoadJobConfig.mk true WriteDisposition.WRITE_APPEND SourceFormat.PARQUET,
               TableReference.mk (DatasetReference.mk "p".data "d".data) "t".data,
               "out.parquet".data) (by decide)).1 (by decide)⟩

/-- Claim C3: every extract job configuration built by send_to_gcs carries
destination format CSV together with the delimiter argument when the format
inferred from the output uri is CSV, and only the inferred format, with no
delimiter, otherwise. -/
theorem send_csv_config {α : Type} (env : Env α)
    (query project_id output_uri delimiter : List Char) (cfg : ExtractJobConfig)
    (hcfg : cfg ∈ extract_configs
      (send_to_gcs env query project_id output_uri delimiter).2) :
    (get_file_type ((splitChar '.' output_uri).getLastD []) = SourceFormat.CSV →
      cfg = ExtractJobConfig.mk SourceFormat.CSV (some delimiter)) ∧
    (get_file_type ((splitChar '.' output_uri).getLastD []) ≠ SourceFormat.CSV →
      cfg = ExtractJobConfig.mk
        (get_file_type ((splitChar '.' output_uri).getLastD [])) none) := by
  have h := mem_extract_configs_send env query project_id output_uri delimiter cfg hcfg
  constructor
  · intro hcsv
    rw [h, if_pos hcsv, hcsv]
  · intro hn
    rw [h, if_neg hn]

/-- Witness for claim C3 at output uri out.csv and delimiter the vertical
bar: the config built in the concrete trace is CSV with that delimiter. -/
theorem send_csv_config_witness :
    (ExtractJobConfig.mk SourceFormat.CSV (some "|".data)
        ∈ extract_configs
            (send_to_gcs env_table_ok "q".data "p".data "out.csv".data "|".data).2)
    ∧ (get_file_type ((splitChar '.' "out.csv".data).getLastD []) = SourceFormat.CSV →
        ExtractJobConfig.mk SourceFormat.CSV (some "|".data)
          = ExtractJobConfig.mk SourceFormat.CSV (some "|".data)) :=
  ⟨by decide,
   (send_csv_config env_table_ok "q".data "p".data "out.csv".data "|".data
      (ExtractJobConfig.mk SourceFormat.CSV (some "|".data)) (by decide)).1⟩

/-- Claim C4: when the table lookup reports not-found, load_from_gcs raises a
NotFound error whose message instructs the caller to create the table
externally, and its only effect is the lookup itself: no load job is
constructed or submitted. -/
theorem load_not_found_raises {α : Type} (env : Env α)
    (table_id input_uri m : List Char)
    (h : env.get_table table_id = Except.error (PyExc.NotFound m)) :
    load_from_gcs env table_id input_uri =
      (Except.error (PyExc.NotFound
          ("Create ".data ++ table_id
            ++ " using terraform in Github before running the container".data)),
       [Effect.getTable table_id]) := by
  simp [load_from_gcs, h]

/-- Witness for claim C4 at a concrete environment whose lookup fails. -/
theorem load_not_found_witness :
    load_from_gcs env_missing_table "p.d.t".data "in.csv".data
      = (Except.error (PyExc.NotFound
            ("Create ".data ++ "p.d.t".data
              ++ " using terraform in Github before running the container".data)),
         [Effect.getTable "p.d.t".data]) :=
  load_not_found_raises env_missing_table "p.d.t".data "in.csv".data
    "missing".data rfl

/-- Claim C5: whenever the result-wait call of a job raises an exception,
get_results logs that exception together with the service account email and
re-raises the very same exception; no Job Result Record is built or returned
and no other effect happens. -/
theorem get_results_propagates_job_exception {α : Type} (sa_email : List Char)
    (bq_job : PyJob α) (e : PyExc) (h : bq_job.result_ret = Except.error e) :
    get_results sa_email bq_job = (Except.error e, [Effect.logError e sa_email]) := by
  simp [get_results, h]

/-- Witness for claim C5 at a concrete failing job. -/
theorem get_results_propagates_witness :
    get_results "sa@x".data job_that_raises
      = (Except.error (PyExc.other 1),
         [Effect.logError (PyExc.other 1) "sa@x".data]) :=
  get_results_propagates_job_exception "sa@x".data job_that_raises
    (PyExc.other 1) rfl

/-- Claim C6, counterexample: the constructor does not copy the secret file
verbatim. For the secret contents consisting of a space and the digit 1, the
file written is the single digit 1 — the json.dump of the parsed value — and
that differs from the original contents. -/
theorem init_not_verbatim_counterexample :
    BQ_init "secret.json".data " 1".data
      = Except.ok [InitEffect.readFile "secret.json".data,
                   InitEffect.writeFile "bq-sa.json".data "1".data,
                   InitEffect.clientFromServiceAccountJson "bq-sa.json".data]
    ∧ "1".data ≠ " 1".data :=
  ⟨rfl, by decide⟩

/-- Claim C6, amended: before the SDK client is constructed, the constructor
creates or overwrites the fixed local file bq-sa.json, and its contents are
the default JSON re-serialization (json.dump) of the value parsed (json.load)
from the secret file — JSON-equivalent to, but not byte-identical with, the
original contents. -/
theorem init_writes_serialized_secret (loc contents : List Char) (v : Json)
    (h : json_load contents = some v) :
    BQ_init loc contents
      = Except.ok [InitEffect.readFile loc,
                   InitEffect.writeFile "bq-sa.json".data (dump_json v),
                   InitEffect.clientFromServiceAccountJson "bq-sa.json".data] := by
  simp [BQ_init, h]

/-- Witness for the amended claim C6 at the secret contents 7. -/
theorem init_writes_serialized_witness :
    BQ_init "secret.json".data "7".data
      = Except.ok [InitEffect.readFile "secret.json".data,
                   InitEffect.writeFile "bq-sa.json".data "7".data,
                   InitEffect.clientFromServiceAccountJson "bq-sa.json".data] :=
  init_writes_serialized_secret "secret.json".data "7".data (Json.num 7) rfl

/-- Claim C7, counterexample: the claim quantifies over every string s, but
for an s itself beginning with gs:// the two parses differ, because the
parser strips the marker only once. Here s is gs://b/f: parsing gs:// ++ s
yields (gs:, b, f) while parsing s yields (b, empty, f). -/
theorem get_parts_gs_invariance_fails_on_double_scheme :
    get_parts ("gs://".data ++ "gs://b/f".data) ≠ get_parts "gs://b/f".data := by
  decide

/-- Claim C7, amended: for every string s that does not itself begin with
gs://, parsing gs:// ++ s and parsing s yield identical (bucket, path,
filename) components. -/
theorem get_parts_gs_invariant_of_no_scheme (s : List Char)
    (h : startswith s gs_scheme = false) :
    get_parts (gs_scheme ++ s) = get_parts s := by
  simp [get_parts, startswith_append, h, drop_five_append]

/-- Witness for the amended claim C7 at s = bucket/path/file.ext. -/
theorem get_parts_gs_invariant_witness :
    get_parts (gs_scheme ++ "bucket/path/file.ext".data)
      = get_parts "bucket/path/file.ext".data :=
  get_parts_gs_invariant_of_no_scheme "bucket/path/file.ext".data (by decide)

/-- Claim C8: when the table lookup succeeds and table_id splits into the
dot-delimited triple p.d.t, load_from_gcs submits exactly one load job, whose
config has autodetect, append write disposition and the source format
inferred from the input uri suffix, aimed at the table reference built from
the triple; and whenever the result-wait of that job succeeds with record
rec, the operation returns the dict with exactly the key loadJob bound to
rec. -/
theorem load_submits_single_append_job {α : Type} (env : Env α)
    (table_id input_uri p d t : List Char)
    (hfound : env.get_table table_id = Except.ok ())
    (hsplit : splitChar '.' table_id = [p, d, t]) :
    load_submissions (load_from_gcs env table_id input_uri).2
      = [(LoadJobConfig.mk true WriteDisposition.WRITE_APPEND
            (get_file_type ((splitChar '.' input_uri).getLastD [])),
          TableReference.mk (DatasetReference.mk p d) t, input_uri)]
    ∧ (∀ rec tl,
        get_results env.sa_email
            (env.load_job
              (LoadJobConfig.mk true WriteDisposition.WRITE_APPEND
                (get_file_type ((splitChar '.' input_uri).getLastD [])))
              (TableReference.mk (DatasetReference.mk p d) t) input_uri)
          = (Except.ok rec, tl) →
        (load_from_gcs env table_id input_uri).1
          = Except.ok [("loadJob".data, rec)]) := by
  constructor
  · rcases hres : get_results env.sa_email
        (env.load_job
          (LoadJobConfig.mk true WriteDisposition.WRITE_APPEND
            (get_file_type ((splitChar '.' input_uri).getLastD [])))
          (TableReference.mk (DatasetReference.mk p d) t) input_uri) with ⟨res, tl⟩
    have htl : load_submissions tl = [] := by
      have h2 := load_submissions_get_results env.sa_email
        (env.load_job
          (LoadJobConfig.mk true WriteDisposition.WRITE_APPEND
            (get_file_type ((splitChar '.' input_uri).getLastD [])))
          (TableReference.mk (DatasetReference.mk p d) t) input_uri)
      rw [hres] at h2; exact h2
    simp only [load_from_gcs, hfound, hsplit, hres]
    cases res <;> simp [htl]
  · intro rec tl hres
    simp only [load_from_gcs, hfound, hsplit, hres]

/-- Witness for claim C8 at table p.d.t and input in.csv in the concrete
all-succeeding environment. -/
theorem load_submits_single_append_witness :
    load_submissions (load_from_gcs env_table_ok "p.d.t".data "in.csv".data).2
      = [(LoadJobConfig.mk true WriteDisposition.WRITE_APPEND SourceFormat.CSV,
          TableReference.mk (DatasetReference.mk "p".data "d".data) "t".data,
          "in.csv".data)] :=
  (load_submits_single_append_job env_table_ok "p.d.t".data "in.csv".data
    "p".data "d".data "t".data rfl (by decide)).1

/-- Claim C9: copy_tables submits no job, performs no observable effect, and
returns None, for every pair of arguments. -/
theorem copy_tables_noop {α : Type} (destination_table : List Char)
    (source_tables : List (List Char)) :
    copy_tables destination_table source_tables
      = ((none : Option (JobsMap α)), ([] : List (Effect α))) :=
  rfl

/-- Claim C10: for every object-storage URI of the form
bucket/s1/.../sn/filename with at least two intermediate segments (none of
the pieces containing a slash, and the whole URI not beginning with gs://),
get_parts returns the bucket, the intermediate segments concatenated with the
slash separators removed, and the filename. -/
theorem get_parts_flattens_intermediate_segments
    (bucket filename : List Char) (segs : List (List Char))
    (hb : '/' ∉ bucket) (hf : '/' ∉ filename) (hs : ∀ p ∈ segs, '/' ∉ p)
    (hlen : 2 ≤ segs.length)
    (hgs : startswith (List.intercalate ['/'] (bucket :: segs ++ [filename]))
      gs_scheme = false) :
    get_parts (List.intercalate ['/'] (bucket :: segs ++ [filename]))
      = (bucket, segs.flatten, filename) := by
  have hx : ∀ l ∈ bucket :: segs ++ [filename], '/' ∉ l := by
    intro l hl
    rcases List.mem_cons.mp hl with h1 | h2
    · exact h1 ▸ hb
    · rcases List.mem_append.mp h2 with h3 | h4
      · exact hs l h3
      · simp at h4; exact h4 ▸ hf
  have hsplit : splitChar '/' (List.intercalate ['/'] (bucket :: segs ++ [filename]))
      = bucket :: segs ++ [filename] :=
    List.splitOn_intercalate _ '/' hx (by simp)
  simp only [get_parts, hgs, if_neg, Bool.false_eq_true, not_false_iff, ite_false, hsplit]
  simp [List.getLastD_concat]
  rw [← List.cons_append, List.getLast?_concat]
  rfl

/-- Witness for claim C10 at bucket/a/b/file.ext, whose path component is ab. -/
theorem get_parts_flattens_witness :
    get_parts (List.intercalate ['/']
        ("bucket".data :: ["a".data, "b".data] ++ ["file.ext".data]))
      = ("bucket".data, "ab".data, "file.ext".data) :=
  get_parts_flattens_intermediate_segments "bucket".data "file.ext".data
    ["a".data, "b".data] (by decide) (by decide) (by decide) (by decide) (by decide)

end BQPy
